import Mathlib

/-
Verification of the SquareShot capture-and-annotate engine against its
natural-language specification.  The definitions below are a shallow
embedding of the Python sources (config.py, coordinate_converter.py,
drawing_utils.py, annotations.py, screenshot_overlay.py,
screenshot_utils.py).  Qt value types (QPoint, QRect, QColor, QPixmap) are
modelled with the integer semantics of Qt 6, which is what PyQt6 binds.
-/

namespace SquareShot

/-- Qt QPoint: a pair of integer coordinates.  QPoint() is (0, 0). -/
structure QPoint where
  x : Int
  y : Int
deriving DecidableEq, Repr

/-- Qt QRect stored the way Qt stores it: the corners x1, y1 (top-left)
and x2, y2 (bottom-right).  width = x2 - x1 + 1, height = y2 - y1 + 1.
The default-constructed QRect() has x1 = y1 = 0, x2 = y2 = -1. -/
structure QRect where
  x1 : Int
  y1 : Int
  x2 : Int
  y2 : Int
deriving DecidableEq, Repr

/-- The default-constructed (null) QRect(). -/
def QRect.mkNull : QRect := ⟨0, 0, -1, -1⟩

def QRect.width (r : QRect) : Int := r.x2 - r.x1 + 1

def QRect.height (r : QRect) : Int := r.y2 - r.y1 + 1

/-- Qt QRect::isNull: both width and height are 0. -/
def QRect.isNull (r : QRect) : Bool :=
  decide (r.x2 = r.x1 - 1 ∧ r.y2 = r.y1 - 1)

/-- Qt QRect::isEmpty: width or height is not positive. -/
def QRect.isEmpty (r : QRect) : Bool :=
  decide (r.x1 > r.x2 ∨ r.y1 > r.y2)

/-- Qt QRect::isValid: width and height are both positive. -/
def QRect.isValid (r : QRect) : Bool :=
  decide (r.x1 ≤ r.x2 ∧ r.y1 ≤ r.y2)

def QRect.topLeft (r : QRect) : QPoint := ⟨r.x1, r.y1⟩

/-- QRect(QPoint topLeft, QPoint bottomRight). -/
def QRect.fromPoints (p q : QPoint) : QRect := ⟨p.x, p.y, q.x, q.y⟩

/-- QRect(QPoint topLeft, QSize size) and QRect(x, y, w, h). -/
def QRect.fromTopLeftSize (p : QPoint) (w h : Int) : QRect :=
  ⟨p.x, p.y, p.x + w - 1, p.y + h - 1⟩

/-- Qt 6 QRect::normalized, transcribed from qrect.cpp: a dimension with
x2 < x1 has its corners swapped and shifted by plus and minus one, so the
absolute width and height are preserved (the QTBUG-22934 behavior change
of Qt 6; a reversed span of n pixels normalizes to width n, not n + 2). -/
def QRect.normalized (r : QRect) : QRect :=
  let nx := if r.x2 < r.x1 then (r.x2 + 1, r.x1 - 1) else (r.x1, r.x2)
  let ny := if r.y2 < r.y1 then (r.y2 + 1, r.y1 - 1) else (r.y1, r.y2)
  ⟨nx.1, ny.1, nx.2, ny.2⟩

/-- Qt QRect::contains(QPoint, proper = false), transcribed from qrect.cpp:
each dimension is first re-ordered (with the historical x2 < x1 - 1 test),
then the point is compared against the ordered pair of bounds. -/
def QRect.contains (r : QRect) (p : QPoint) : Bool :=
  let lr := if r.x2 < r.x1 - 1 then (r.x2, r.x1) else (r.x1, r.x2)
  let tb := if r.y2 < r.y1 - 1 then (r.y2, r.y1) else (r.y1, r.y2)
  decide (lr.1 ≤ p.x ∧ p.x ≤ lr.2 ∧ tb.1 ≤ p.y ∧ p.y ≤ tb.2)

/-- Qt QRect::intersected, transcribed from qrect.cpp (operator&): null
inputs give a null rectangle; each input is re-ordered per dimension; a
separation test per dimension gives a null rectangle; otherwise the
corner-wise max/min rectangle. -/
def QRect.intersected (r s : QRect) : QRect :=
  if r.isNull || s.isNull then QRect.mkNull
  else
    let lr1 := if r.x2 < r.x1 - 1 then (r.x2, r.x1) else (r.x1, r.x2)
    let lr2 := if s.x2 < s.x1 - 1 then (s.x2, s.x1) else (s.x1, s.x2)
    if lr1.1 > lr2.2 ∨ lr2.1 > lr1.2 then QRect.mkNull
    else
      let tb1 := if r.y2 < r.y1 - 1 then (r.y2, r.y1) else (r.y1, r.y2)
      let tb2 := if s.y2 < s.y1 - 1 then (s.y2, s.y1) else (s.y1, s.y2)
      if tb1.1 > tb2.2 ∨ tb2.1 > tb1.2 then QRect.mkNull
      else
        ⟨max lr1.1 lr2.1, max tb1.1 tb2.1, min lr1.2 lr2.2, min tb1.2 tb2.2⟩

/-- Qt QColor restricted to its rgb components (every color this program
builds uses the default alpha of 255, so equality on rgb matches QColor
equality at all call sites). -/
structure QColor where
  r : Nat
  g : Nat
  b : Nat
deriving DecidableEq, Repr

def QColor.white : QColor := ⟨255, 255, 255⟩

def QColor.black : QColor := ⟨0, 0, 0⟩

/-- The palette of config.AnnotationColor, in declaration order. -/
def annotationColors : List QColor :=
  [⟨255, 0, 0⟩, ⟨0, 0, 255⟩, ⟨0, 255, 0⟩, ⟨255, 255, 0⟩, ⟨128, 0, 128⟩]

-- config.Config constants used by the modelled code.
namespace Config

def MIN_SELECTION_SIZE : Int := 10

def MIN_ARROW_LENGTH : Int := 10

def MIN_RECT_SIZE : Int := 5

def MAX_HISTORY : Nat := 20

end Config

/-- drawing_utils.DrawStyle. -/
structure DrawStyle where
  thickness : Int
  color : QColor
deriving DecidableEq, Repr

/-- drawing_utils.DrawStyle.outline_color: white unless the main color is
exactly white, in which case black. -/
def DrawStyle.outline_color (s : DrawStyle) : QColor :=
  if s.color ≠ QColor.white then QColor.white else QColor.black

/-- Modelled from the spec: the spec derives the outline as whichever of
black and white has the higher contrast relative to the main color; the
code under src/ has no such computation, so contrast is modelled by the
standard integer relative luminance 299 r + 587 g + 114 b (out of 255000),
with the contrast of the main color against black or white measured as the
luminance distance to that extreme.  Black wins exactly when the luminance
is above the midpoint. -/
def luminance (c : QColor) : Nat := 299 * c.r + 587 * c.g + 114 * c.b

/-- Modelled from the spec: the higher-contrast choice between black and
white for a given main color (see `luminance`). -/
def spec_outline_color (c : QColor) : QColor :=
  if luminance c > 127500 then QColor.black else QColor.white

/-- coordinate_converter.CoordinateConverter. -/
structure CoordinateConverter where
  virtual_geometry : QRect
deriving DecidableEq, Repr

/-- CoordinateConverter.desktop_to_widget on a QPoint:
point - virtual_geometry.topLeft(). -/
def CoordinateConverter.desktop_to_widget (c : CoordinateConverter) (p : QPoint) : QPoint :=
  ⟨p.x - c.virtual_geometry.x1, p.y - c.virtual_geometry.y1⟩

/-- CoordinateConverter.desktop_to_widget on a QRect (the Python method
dispatches on the argument type): QRect(converted top-left, same size). -/
def CoordinateConverter.desktop_to_widget_rect (c : CoordinateConverter) (r : QRect) : QRect :=
  QRect.fromTopLeftSize (c.desktop_to_widget r.topLeft) r.width r.height

/-- CoordinateConverter.widget_to_desktop on a QPoint:
point + virtual_geometry.topLeft(). -/
def CoordinateConverter.widget_to_desktop (c : CoordinateConverter) (p : QPoint) : QPoint :=
  ⟨p.x + c.virtual_geometry.x1, p.y + c.virtual_geometry.y1⟩

/-- CoordinateConverter.widget_to_desktop on a QRect. -/
def CoordinateConverter.widget_to_desktop_rect (c : CoordinateConverter) (r : QRect) : QRect :=
  QRect.fromTopLeftSize (c.widget_to_desktop r.topLeft) r.width r.height

/-- config.AnnotationMode. -/
inductive AnnotationMode where
  | none
  | arrow
  | rectangle
  | text
deriving DecidableEq, Repr

/-- The annotation data model of annotations.py: the three concrete
subclasses of the Annotation base class, each carrying its geometry and a
DrawStyle (stored via DrawStyle.copy, which is value copying here). -/
inductive Annotation where
  | arrow (start_point end_point : QPoint) (style : DrawStyle)
  | rectangle (rect : QRect) (style : DrawStyle)
  | text (position : QPoint) (content : String) (style : DrawStyle)
deriving DecidableEq, Repr

-- Qt key codes and modifier handling used by keyPressEvent.
namespace Qt

def Key_Escape : Int := 0x01000000

def Key_Backspace : Int := 0x01000003

def Key_Return : Int := 0x01000004

def Key_Enter : Int := 0x01000005

def Key_Delete : Int := 0x01000007

def Key_Left : Int := 0x01000012

def Key_Right : Int := 0x01000014

def Key_1 : Int := 0x31

def Key_2 : Int := 0x32

def Key_3 : Int := 0x33

def Key_4 : Int := 0x34

def Key_C : Int := 0x43

def Key_R : Int := 0x52

def Key_S : Int := 0x53

def Key_Z : Int := 0x5a

end Qt

/-- A keyboard event as keyPressEvent reads it: the key code, whether the
Control modifier is held (the only modifier the shortcut table tests), and
the produced text. -/
structure KeyEvent where
  key : Int
  ctrl : Bool
  text : String
deriving DecidableEq, Repr

/-- Python str.isprintable restricted to the ASCII range; _handle_text_input
uses it only to filter the produced text of ordinary key events, and no
theorem below depends on this branch. -/
def pyIsPrintable (s : String) : Bool :=
  s.toList.all fun c => 32 ≤ c.toNat && c.toNat ≠ 127

/-- Qt QPixmap modelled as its dimensions plus a pixel map.  The pixel map
is total; the theorems below establish which coordinates a computation
actually reads. -/
structure Pixmap where
  width : Int
  height : Int
  pix : Int → Int → Int

/-- The null pixmap QPixmap(). -/
def Pixmap.mkNull : Pixmap := ⟨0, 0, fun _ _ => 0⟩

/-- QPixmap.isNull: a pixmap with no pixels. -/
def Pixmap.isNull (p : Pixmap) : Bool := decide (p.width ≤ 0 ∨ p.height ≤ 0)

/-- QPixmap.copy(rect): a pixmap of the size of rect whose pixel (i, j)
comes from the source at rect.topLeft() + (i, j). -/
def Pixmap.copy (s : Pixmap) (r : QRect) : Pixmap :=
  ⟨r.width, r.height, fun i j => s.pix (r.x1 + i) (r.y1 + j)⟩

/-- The clipped rectangle of MultiMonitorScreenshot.extract_rect_from_pixmap:
the desktop rectangle translated into pixmap coordinates by the
virtual-geometry origin (same size), intersected with the pixmap bounds. -/
def extraction_clip (source : Pixmap) (desktop_rect virtual_geometry : QRect) : QRect :=
  (QRect.fromTopLeftSize
      ⟨desktop_rect.x1 - virtual_geometry.x1, desktop_rect.y1 - virtual_geometry.y1⟩
      desktop_rect.width desktop_rect.height).intersected
    (QRect.fromTopLeftSize ⟨0, 0⟩ source.width source.height)

/-- MultiMonitorScreenshot.extract_rect_from_pixmap: copy the clipped
rectangle out of the source; a null source, an empty request or an empty
intersection yields the null pixmap. -/
def extract_rect_from_pixmap (source : Pixmap) (desktop_rect virtual_geometry : QRect) : Pixmap :=
  if source.isNull || desktop_rect.isEmpty then Pixmap.mkNull
  else
    let clipped_rect := extraction_clip source desktop_rect virtual_geometry
    if clipped_rect.isEmpty then Pixmap.mkNull else source.copy clipped_rect

/-- The mutable state of screenshot_overlay.ScreenshotOverlay, exactly the
fields its __init__ sets (the Qt widget plumbing and the clipboard/save
collaborators are outside the state machine; the virtual geometry the
source also stores on the widget is the rectangle inside coord_converter,
set from the same value).  history_index is an Int because __init__ and
_start_new_selection set it to -1. -/
structure ScreenshotOverlay where
  coord_converter : CoordinateConverter
  background_screenshot : Pixmap
  selection_rect : QRect
  is_selecting : Bool
  selection_start : QPoint
  selection_complete : Bool
  annotation_mode : AnnotationMode
  current_color_index : Int
  current_style : DrawStyle
  annotations : List Annotation
  annotation_history : List (List Annotation)
  history_index : Int
  is_drawing : Bool
  draw_start_point : QPoint
  current_rect : QRect
  current_arrow_end : QPoint
  is_text_editing : Bool
  text_position : QPoint
  current_text : String
  text_cursor_position : Int
  is_exiting : Bool

/-- ScreenshotOverlay.add_to_history: truncate past the current index,
append a copy of the annotation list, advance the index; if the length now
exceeds Config.MAX_HISTORY, pop the oldest snapshot and move the index back
by one.  Python list slicing hist[: i + 1] clamps at both ends exactly like
List.take (i + 1).toNat for i ≥ -1. -/
def add_to_history (o : ScreenshotOverlay) : ScreenshotOverlay :=
  let hist := o.annotation_history.take (o.history_index + 1).toNat ++ [o.annotations]
  let idx := o.history_index + 1
  if hist.length > Config.MAX_HISTORY then
    { o with annotation_history := hist.tail, history_index := idx - 1 }
  else
    { o with annotation_history := hist, history_index := idx }

/-- ScreenshotOverlay.undo.  The Python indexing hist[i] is total here via
getD; every reachable call has 0 ≤ i - 1 < len, where the two agree. -/
def undo (o : ScreenshotOverlay) : ScreenshotOverlay :=
  if o.history_index > 0 then
    { o with history_index := o.history_index - 1,
             annotations := o.annotation_history.getD (o.history_index - 1).toNat [] }
  else o

/-- ScreenshotOverlay.redo (same indexing remark as undo). -/
def redo (o : ScreenshotOverlay) : ScreenshotOverlay :=
  if o.history_index < (o.annotation_history.length : Int) - 1 then
    { o with history_index := o.history_index + 1,
             annotations := o.annotation_history.getD (o.history_index + 1).toNat [] }
  else o

/-- ScreenshotOverlay.set_annotation_mode. -/
def set_annotation_mode (o : ScreenshotOverlay) (m : AnnotationMode) : ScreenshotOverlay :=
  { o with annotation_mode := m }

/-- ScreenshotOverlay.finish_text_editing: if a text edit is active and the
stripped buffer is non-empty, append a Text annotation with the stripped
buffer and push a history snapshot; in every case leave text editing off
with an empty buffer.  Python str.strip() is String.trim. -/
def finish_text_editing (o : ScreenshotOverlay) : ScreenshotOverlay :=
  let o1 :=
    if o.is_text_editing && o.current_text.trim ≠ "" then
      add_to_history
        { o with annotations :=
            o.annotations ++ [ Annotation.text o.text_position o.current_text.trim o.current_style] }
    else o
  { o1 with is_text_editing := false, current_text := "" }

/-- ScreenshotOverlay._start_new_selection: reset the selection to a fresh
drag at the given desktop point, clear annotations, history (to the empty
list with index -1), drawing state, and then call finish_text_editing. -/
def start_new_selection (o : ScreenshotOverlay) (desktop_pos : QPoint) : ScreenshotOverlay :=
  finish_text_editing
    { o with selection_complete := false, is_selecting := true,
             selection_start := desktop_pos, selection_rect := QRect.mkNull,
             annotation_mode := AnnotationMode.none,
             annotations := [], annotation_history := [], history_index := -1,
             is_drawing := false, current_rect := QRect.mkNull,
             current_arrow_end := ⟨0, 0⟩ }

/-- ScreenshotOverlay._start_text_editing. -/
def start_text_editing (o : ScreenshotOverlay) (pos : QPoint) : ScreenshotOverlay :=
  { o with is_text_editing := true, text_position := pos, current_text := "",
           text_cursor_position := 0, is_drawing := false }

/-- ScreenshotOverlay._handle_annotation_click. -/
def handle_annotation_click (o : ScreenshotOverlay) (widget_pos : QPoint) : ScreenshotOverlay :=
  if o.annotation_mode = AnnotationMode.none then o
  else
    let o1 :=
      if o.is_text_editing && decide (o.annotation_mode = AnnotationMode.text) then
        start_text_editing (finish_text_editing o) widget_pos
      else if o.is_text_editing then finish_text_editing o
      else o
    let o2 := { o1 with is_drawing := true, draw_start_point := widget_pos }
    if o2.annotation_mode = AnnotationMode.text then start_text_editing o2 widget_pos
    else o2

/-- ScreenshotOverlay.mousePressEvent restricted to the left button (the
method does nothing for other buttons). -/
def mousePressEvent (o : ScreenshotOverlay) (widget_pos : QPoint) : ScreenshotOverlay :=
  if o.is_exiting then o
  else
    let desktop_pos := o.coord_converter.widget_to_desktop widget_pos
    if o.selection_complete = false then
      { o with is_selecting := true, selection_start := desktop_pos,
               selection_rect := QRect.mkNull }
    else if (o.coord_converter.desktop_to_widget_rect o.selection_rect).contains widget_pos = false then
      start_new_selection o desktop_pos
    else
      handle_annotation_click o widget_pos

/-- ScreenshotOverlay.mouseMoveEvent. -/
def mouseMoveEvent (o : ScreenshotOverlay) (widget_pos : QPoint) : ScreenshotOverlay :=
  if o.is_exiting then o
  else
    let desktop_pos := o.coord_converter.widget_to_desktop widget_pos
    if o.is_selecting then
      { o with selection_rect := (QRect.fromPoints o.selection_start desktop_pos).normalized }
    else if o.is_drawing &&
        (decide (o.annotation_mode = AnnotationMode.arrow) ||
         decide (o.annotation_mode = AnnotationMode.rectangle)) then
      if o.annotation_mode = AnnotationMode.rectangle then
        { o with current_rect := (QRect.fromPoints o.draw_start_point widget_pos).normalized }
      else
        { o with current_arrow_end := widget_pos }
    else o

/-- ScreenshotOverlay._complete_selection: stop the drag; if both sides of
the dragged rectangle strictly exceed MIN_SELECTION_SIZE the selection is
complete and the history is seeded with one empty snapshot at index 0. -/
def complete_selection (o : ScreenshotOverlay) : ScreenshotOverlay :=
  let o1 := { o with is_selecting := false }
  if o1.selection_rect.width > Config.MIN_SELECTION_SIZE ∧
     o1.selection_rect.height > Config.MIN_SELECTION_SIZE then
    { o1 with selection_complete := true, annotation_history := [[]], history_index := 0 }
  else o1

/-- ScreenshotOverlay._complete_drawing.  The Python arrow gate compares
the Euclidean length (dx * dx + dy * dy) ** 0.5 against MIN_ARROW_LENGTH;
both sides being nonnegative, that comparison is exactly the integer
comparison of dx * dx + dy * dy against MIN_ARROW_LENGTH squared. -/
def complete_drawing (o : ScreenshotOverlay) (end_pos : QPoint) : ScreenshotOverlay :=
  let o1 := { o with is_drawing := false }
  let committed : Option Annotation :=
    match o1.annotation_mode with
    | AnnotationMode.arrow =>
        let dx := end_pos.x - o1.draw_start_point.x
        let dy := end_pos.y - o1.draw_start_point.y
        if dx * dx + dy * dy ≥ Config.MIN_ARROW_LENGTH * Config.MIN_ARROW_LENGTH then
          some ( Annotation.arrow o1.draw_start_point end_pos o1.current_style)
        else none
    | AnnotationMode.rectangle =>
        let rect := (QRect.fromPoints o1.draw_start_point end_pos).normalized
        if rect.width > Config.MIN_RECT_SIZE ∧ rect.height > Config.MIN_RECT_SIZE then
          some ( Annotation.rectangle rect o1.current_style)
        else none
    | _ => none
  let o2 :=
    match committed with
    | some a => add_to_history { o1 with annotations := o1.annotations ++ [a] }
    | none => o1
  { o2 with current_rect := QRect.mkNull, current_arrow_end := ⟨0, 0⟩ }

/-- ScreenshotOverlay.mouseReleaseEvent restricted to the left button. -/
def mouseReleaseEvent (o : ScreenshotOverlay) (widget_pos : QPoint) : ScreenshotOverlay :=
  if o.is_exiting then o
  else if o.is_selecting then complete_selection o
  else if o.is_drawing then complete_drawing o widget_pos
  else o

/-- ScreenshotOverlay.wheelEvent: while the selection is complete, a
positive scroll delta raises the thickness clamped at 20, any other delta
lowers it clamped at 1. -/
def wheelEvent (o : ScreenshotOverlay) (delta : Int) : ScreenshotOverlay :=
  if o.is_exiting then o
  else if o.selection_complete then
    if delta > 0 then
      { o with current_style := { o.current_style with thickness := min 20 (o.current_style.thickness + 1) } }
    else
      { o with current_style := { o.current_style with thickness := max 1 (o.current_style.thickness - 1) } }
  else o

/-- ScreenshotOverlay._prepare_exit, reduced to its effect on the modelled
state: latch the exiting flag (idempotently) and force-finish any text
edit.  Window-manager calls are external. -/
def prepare_exit (o : ScreenshotOverlay) : ScreenshotOverlay :=
  if o.is_exiting then o
  else finish_text_editing { o with is_exiting := true }

/-- ScreenshotOverlay._exit_with_focus_restore, reduced to its state
effect (the close and quit calls are external). -/
def exit_with_focus_restore (o : ScreenshotOverlay) : ScreenshotOverlay :=
  prepare_exit o

/-- ScreenshotOverlay.get_selected_pixmap_with_annotations, modelled up to
the painter: the two null checks and the extracted geometry are exact;
drawing the annotations mutates pixels of the extracted pixmap only (its
dimensions and nullness are unchanged), and no caller below inspects those
pixels, so the painting is omitted. -/
def get_selected_pixmap_with_annotations (o : ScreenshotOverlay) : Pixmap :=
  if o.selection_rect.isValid = false then Pixmap.mkNull
  else
    let base := extract_rect_from_pixmap o.background_screenshot o.selection_rect
      o.coord_converter.virtual_geometry
    if base.isNull then Pixmap.mkNull else base

/-- ScreenshotOverlay.save_screenshot, reduced to its state effect up to
the external save dialog: an invalid selection or a failed extraction
changes nothing, otherwise _prepare_exit runs before the dialog (the
dialog outcome and the file write are external collaborators). -/
def save_screenshot (o : ScreenshotOverlay) : ScreenshotOverlay :=
  if o.selection_rect.isValid = false then o
  else if (get_selected_pixmap_with_annotations o).isNull then o
  else prepare_exit o

/-- ScreenshotOverlay.copy_to_clipboard, reduced to its state effect up to
the external clipboard transfer, with the same invalid-selection and
failed-extraction early returns as save_screenshot. -/
def copy_to_clipboard (o : ScreenshotOverlay) : ScreenshotOverlay :=
  if o.selection_rect.isValid = false then o
  else if (get_selected_pixmap_with_annotations o).isNull then o
  else prepare_exit o

/-- ScreenshotOverlay._switch_mode. -/
def switch_mode (o : ScreenshotOverlay) (m : AnnotationMode) : ScreenshotOverlay :=
  set_annotation_mode (finish_text_editing o) m

/-- ScreenshotOverlay._cycle_color. -/
def cycle_color (o : ScreenshotOverlay) : ScreenshotOverlay :=
  let i := (o.current_color_index + 1) % (annotationColors.length : Int)
  { o with current_color_index := i,
           current_style := { o.current_style with
             color := annotationColors.getD i.toNat QColor.black } }

/-- ScreenshotOverlay._handle_text_input.  Python string slicing is by
code points, matching String.take / String.drop on the character list. -/
def handle_text_input (o : ScreenshotOverlay) (key : Int) (text : String) : ScreenshotOverlay :=
  if key = Qt.Key_Return ∨ key = Qt.Key_Enter then finish_text_editing o
  else if key = Qt.Key_Escape then
    { o with is_text_editing := false, current_text := "" }
  else if key = Qt.Key_Backspace ∧ o.text_cursor_position > 0 then
    { o with current_text := o.current_text.take (o.text_cursor_position - 1).toNat ++
               o.current_text.drop o.text_cursor_position.toNat,
             text_cursor_position := o.text_cursor_position - 1 }
  else if key = Qt.Key_Delete ∧ o.text_cursor_position < (o.current_text.length : Int) then
    { o with current_text := o.current_text.take o.text_cursor_position.toNat ++
               o.current_text.drop (o.text_cursor_position + 1).toNat }
  else if key = Qt.Key_Left then
    { o with text_cursor_position := max 0 (o.text_cursor_position - 1) }
  else if key = Qt.Key_Right then
    { o with text_cursor_position := min (o.current_text.length : Int) (o.text_cursor_position + 1) }
  else if text ≠ "" ∧ pyIsPrintable text then
    { o with current_text := o.current_text.take o.text_cursor_position.toNat ++ text ++
               o.current_text.drop o.text_cursor_position.toNat,
             text_cursor_position := o.text_cursor_position + (text.length : Int) }
  else o

/-- ScreenshotOverlay.keyPressEvent: text editing intercepts every key
first; otherwise the shortcut dictionary is scanned in insertion order and
the first match fires.  A shortcut whose modifier entry is 0 matches
whatever modifiers are held (Python: not shortcut_mod or modifiers &
shortcut_mod). -/
def keyPressEvent (o : ScreenshotOverlay) (ev : KeyEvent) : ScreenshotOverlay :=
  if o.is_exiting then o
  else if o.is_text_editing then handle_text_input o ev.key ev.text
  else if ev.key = Qt.Key_S ∧ ev.ctrl then save_screenshot o
  else if ev.key = Qt.Key_C ∧ ev.ctrl then copy_to_clipboard o
  else if ev.key = Qt.Key_Z ∧ ev.ctrl then undo o
  else if ev.key = Qt.Key_R ∧ ev.ctrl then redo o
  else if ev.key = Qt.Key_Escape then exit_with_focus_restore o
  else if ev.key = Qt.Key_1 then switch_mode o AnnotationMode.arrow
  else if ev.key = Qt.Key_2 then switch_mode o AnnotationMode.rectangle
  else if ev.key = Qt.Key_3 then switch_mode o AnnotationMode.text
  else if ev.key = Qt.Key_4 then cycle_color o
  else o

/-- One screenshot backend of screenshot_utils, as the selector sees it:
its name, the availability flag its constructor computed from the
environment, and the outcome its capture_all_screens would produce (none
for a raised-and-caught failure or a None return). -/
structure Backend where
  name : String
  available : Bool
  captureResult : Option Pixmap

/-- ScreenshotBackend.is_available. -/
def Backend.is_available (b : Backend) : Bool := b.available

/-- The class-level memo of MultiMonitorScreenshot: the backend list once
built, and the pinned active backend. -/
structure BackendState where
  backends : Option (List Backend)
  active : Option Backend

/-- The fresh state: MultiMonitorScreenshot._backends = None,
_active_backend = None. -/
def BackendState.fresh : BackendState := ⟨none, none⟩

/-- The fixed priority list MultiMonitorScreenshot._initialize_backends
constructs, parameterized by each constructor-probed availability flag and
capture outcome: Qt native, grim, gnome-screenshot, spectacle, ImageMagick
import. -/
def mkBackends (qtA grimA gnomeA spectacleA imA : Bool)
    (qtC grimC gnomeC spectacleC imC : Option Pixmap) : List Backend :=
  [⟨"Qt Native", qtA, qtC⟩,
   ⟨"Grim (Wayland)", grimA, grimC⟩,
   ⟨"GNOME Screenshot", gnomeA, gnomeC⟩,
   ⟨"Spectacle (KDE)", spectacleA, spectacleC⟩,
   ⟨"ImageMagick", imA, imC⟩]

/-- MultiMonitorScreenshot._initialize_backends: a no-op once the backend
list exists; otherwise build the list and pin the first backend whose
is_available() holds. -/
def initialize_backends (mk : List Backend) (s : BackendState) : BackendState :=
  if s.backends.isSome then s
  else ⟨some mk, mk.find? fun b => b.is_available⟩

/-- MultiMonitorScreenshot.capture_all_screens: initialize once, fail to
the null pixmap when no backend is pinned or the geometry is empty,
otherwise delegate to the pinned backend and fail to the null pixmap when
that single backend fails — no other backend is consulted.  The virtual
geometry is passed in (the source computes it from the pinned backend and
the screen set, both external). -/
def capture_all_screens (mk : List Backend) (virtual_rect : QRect) (s : BackendState) :
    BackendState × Pixmap :=
  let s1 := initialize_backends mk s
  match s1.active with
  | none => (s1, Pixmap.mkNull)
  | some b =>
      if virtual_rect.isEmpty then (s1, Pixmap.mkNull)
      else
        match b.captureResult with
        | none => (s1, Pixmap.mkNull)
        | some p => if p.isNull then (s1, Pixmap.mkNull) else (s1, p)

/-
Concrete fixtures for the closed counterexample and witness statements.
-/

def baseStyle : DrawStyle := ⟨3, ⟨255, 0, 0⟩⟩

/-- A 1920 x 1080 captured background for the fixtures. -/
def baseBackground : Pixmap := ⟨1920, 1080, fun _ _ => 0⟩

/-- An overlay state as right after __init__ on a 1920 x 1080 desktop at
the origin. -/
def baseOverlay : ScreenshotOverlay where
  coord_converter := ⟨⟨0, 0, 1919, 1079⟩⟩
  background_screenshot := baseBackground
  selection_rect := QRect.mkNull
  is_selecting := false
  selection_start := ⟨0, 0⟩
  selection_complete := false
  annotation_mode := AnnotationMode.none
  current_color_index := 0
  current_style := baseStyle
  annotations := []
  annotation_history := []
  history_index := -1
  is_drawing := false
  draw_start_point := ⟨0, 0⟩
  current_rect := QRect.mkNull
  current_arrow_end := ⟨0, 0⟩
  is_text_editing := false
  text_position := ⟨0, 0⟩
  current_text := ""
  text_cursor_position := 0
  is_exiting := false

def rectAnnot : Annotation := Annotation.rectangle ⟨120, 120, 150, 150⟩ baseStyle

/-- A state with a Complete selection, one committed annotation and its
two-snapshot history. -/
def completeOverlay : ScreenshotOverlay :=
  { baseOverlay with
      selection_rect := ⟨100, 100, 300, 300⟩
      selection_complete := true
      annotation_mode := AnnotationMode.rectangle
      annotations := [rectAnnot]
      annotation_history := [[], [rectAnnot]]
      history_index := 1 }

/-- completeOverlay in the middle of an arrow drag that started at
(200, 200). -/
def arrowDragOverlay : ScreenshotOverlay :=
  { completeOverlay with
      annotation_mode := AnnotationMode.arrow
      is_drawing := true
      draw_start_point := ⟨200, 200⟩
      current_arrow_end := ⟨203, 204⟩ }

/-- completeOverlay in the middle of a text edit at (150, 150). -/
def textEditOverlay : ScreenshotOverlay :=
  { completeOverlay with
      annotation_mode := AnnotationMode.text
      is_text_editing := true
      text_position := ⟨150, 150⟩
      current_text := "hi"
      text_cursor_position := 2 }

/-- A 4 x 3 source pixmap whose pixel (x, y) is x + 10 y. -/
def samplePixmap : Pixmap := ⟨4, 3, fun x y => x + 10 * y⟩

/-- A desktop selection rectangle that sticks out past samplePixmap. -/
def sampleDesktopRect : QRect := ⟨2, 1, 10, 8⟩

/-- A virtual geometry whose origin is (0, 0). -/
def sampleVG : QRect := ⟨0, 0, 1919, 1079⟩

/-- A backend list where only grim is available and its capture fails. -/
def grimFailingBackends : List Backend :=
  mkBackends false true false false false none none none none none

def grimFailingBackend : Backend := ⟨"Grim (Wayland)", true, none⟩

/-
Theorems.
-/

/-- C5: for every integer point p and every rectangle, desktop to widget
followed by widget to desktop (and vice versa) returns the original value
exactly; rectangles are translated by the virtual-geometry origin with
their width and height preserved, by pure integer addition and
subtraction. -/
theorem c5_coordinate_round_trip (c : CoordinateConverter) (p : QPoint) (r : QRect) :
    c.widget_to_desktop (c.desktop_to_widget p) = p ∧
    c.desktop_to_widget (c.widget_to_desktop p) = p ∧
    c.widget_to_desktop_rect (c.desktop_to_widget_rect r) = r ∧
    c.desktop_to_widget_rect (c.widget_to_desktop_rect r) = r ∧
    (c.desktop_to_widget_rect r).topLeft = c.desktop_to_widget r.topLeft ∧
    (c.desktop_to_widget_rect r).width = r.width ∧
    (c.desktop_to_widget_rect r).height = r.height ∧
    (c.widget_to_desktop_rect r).topLeft = c.widget_to_desktop r.topLeft ∧
    (c.widget_to_desktop_rect r).width = r.width ∧
    (c.widget_to_desktop_rect r).height = r.height := by
  obtain ⟨x, y⟩ := p
  obtain ⟨a, b, d, e⟩ := r
  simp only [CoordinateConverter.desktop_to_widget, CoordinateConverter.widget_to_desktop,
    CoordinateConverter.desktop_to_widget_rect, CoordinateConverter.widget_to_desktop_rect,
    QRect.fromTopLeftSize, QRect.topLeft, QRect.width, QRect.height,
    QPoint.mk.injEq, QRect.mk.injEq]
  and_intros <;> first | trivial | omega

/-- C3 counterexample: for the palette color yellow (255, 255, 0) the code
derives a white outline, while the higher-contrast choice between black
and white relative to yellow is black (yellow has luminance 225930 of
255000, far above the midpoint), so the claim fails at yellow. -/
theorem c3_outline_counterexample :
    (DrawStyle.mk 3 ⟨255, 255, 0⟩).outline_color = QColor.white ∧
    spec_outline_color ⟨255, 255, 0⟩ = QColor.black ∧
    QColor.white ≠ QColor.black := by
  refine ⟨by decide, by decide, by decide⟩

/-- C3 (amended): the derived outline color is always black or white and
always differs from the main color, but it is not the higher-contrast
choice: it is black exactly when the main color is exactly white
(255, 255, 255), and white for every other main color, light or dark. -/
theorem c3_outline_amended (s : DrawStyle) :
    (s.outline_color = QColor.white ∨ s.outline_color = QColor.black) ∧
    s.outline_color ≠ s.color ∧
    (s.outline_color = QColor.black ↔ s.color = QColor.white) := by
  unfold DrawStyle.outline_color
  by_cases h : s.color = QColor.white
  · simp [h]
    decide
  · simp [h]
    constructor
    · exact fun hc => h hc.symm
    · decide

/-- Helper: undo never changes the history log itself. -/
theorem undo_annotation_history (o : ScreenshotOverlay) :
    (undo o).annotation_history = o.annotation_history := by
  unfold undo
  split <;> rfl

/-- Helper: the index after one undo. -/
theorem undo_history_index (o : ScreenshotOverlay) :
    (undo o).history_index =
      if 0 < o.history_index then o.history_index - 1 else o.history_index := by
  unfold undo
  split <;> simp_all

/-- Helper: k repetitions of undo clamp the index at 0. -/
theorem undo_iterate_index (o : ScreenshotOverlay) (h : 0 ≤ o.history_index) (k : Nat) :
    (undo^[k] o).history_index = max (o.history_index - (k : Int)) 0 := by
  induction k generalizing o with
  | zero => simpa using by omega
  | succ n ih =>
      rw [Function.iterate_succ_apply]
      have h1 : 0 ≤ (undo o).history_index := by
        rw [undo_history_index]; split <;> omega
      rw [ih (undo o) h1, undo_history_index]
      split <;> [skip; skip] <;> push_cast <;> omega

/-- C2: a push truncates the redo branch, appends the new snapshot and
advances the index; the log never exceeds the capacity of 20; on overflow
the oldest snapshot is evicted and the index moves back by one, so the
active snapshot is still the snapshot just pushed, every surviving older
snapshot shifting down one slot; afterwards the log is non-empty and the
index lies in [0, len - 1] (indeed at len - 1). -/
theorem c2_history_push (o : ScreenshotOverlay)
    (hlen : o.annotation_history.length ≤ Config.MAX_HISTORY)
    (hlo : -1 ≤ o.history_index)
    (hhi : o.history_index < (o.annotation_history.length : Int)) :
    (add_to_history o).annotation_history.length ≤ Config.MAX_HISTORY ∧
    (add_to_history o).annotation_history ≠ [] ∧
    0 ≤ (add_to_history o).history_index ∧
    (add_to_history o).history_index = ((add_to_history o).annotation_history.length : Int) - 1 ∧
    (add_to_history o).annotation_history.getD
      (add_to_history o).history_index.toNat [] = o.annotations ∧
    (∀ j : Nat, (j : Int) < (add_to_history o).history_index →
      (add_to_history o).annotation_history[j]? =
        (if (Config.MAX_HISTORY : Int) < o.history_index + 2
         then o.annotation_history[j + 1]?
         else o.annotation_history[j]?)) := by
  have hform : add_to_history o =
      (if (o.annotation_history.take (o.history_index + 1).toNat ++ [o.annotations]).length >
          Config.MAX_HISTORY then
        { o with
          annotation_history :=
            (o.annotation_history.take (o.history_index + 1).toNat ++ [o.annotations]).tail
          history_index := o.history_index + 1 - 1 }
      else
        { o with
          annotation_history :=
            o.annotation_history.take (o.history_index + 1).toNat ++ [o.annotations]
          history_index := o.history_index + 1 }) := rfl
  have htv : (((o.history_index + 1).toNat : Nat) : Int) = o.history_index + 1 :=
    Int.toNat_of_nonneg (by omega)
  have htlen : (o.history_index + 1).toNat ≤ o.annotation_history.length := by omega
  have hlt : (o.annotation_history.take (o.history_index + 1).toNat).length =
      (o.history_index + 1).toNat := by
    rw [List.length_take]; omega
  rw [hform]
  by_cases hbig : (o.annotation_history.take (o.history_index + 1).toNat ++
      [o.annotations]).length > Config.MAX_HISTORY
  · rw [if_pos hbig]
    dsimp only
    rw [List.length_append, hlt] at hbig
    simp only [List.length_cons, List.length_nil, Config.MAX_HISTORY] at hbig
    have ht20 : (o.history_index + 1).toNat = 20 := by
      simp only [Config.MAX_HISTORY] at hlen
      omega
    have hlen20 : o.annotation_history.length = 20 := by
      simp only [Config.MAX_HISTORY] at hlen
      omega
    have htake : o.annotation_history.take (o.history_index + 1).toNat = o.annotation_history := by
      rw [ht20, ← hlen20, List.take_length]
    rw [htake]
    rcases hl : o.annotation_history with _ | ⟨hd, tl⟩
    · rw [hl] at hlen20
      simp at hlen20
    · have htl : tl.length = 19 := by
        rw [hl] at hlen20
        simpa using hlen20
      simp only [List.cons_append, List.tail_cons]
      refine ⟨?_, by simp, by omega, ?_, ?_, ?_⟩
      · simp only [List.length_append, List.length_cons, List.length_nil, Config.MAX_HISTORY]
        omega
      · simp only [List.length_append, List.length_cons, List.length_nil, htl]
        push_cast
        omega
      · have hidx : (o.history_index + 1 - 1).toNat = tl.length := by omega
        rw [List.getD_eq_getElem?_getD, hidx, List.getElem?_concat_length]
        rfl
      · intro j hj
        have hcond : (Config.MAX_HISTORY : Int) < o.history_index + 2 := by
          simp only [Config.MAX_HISTORY]
          push_cast
          omega
        rw [if_pos hcond, List.getElem?_cons_succ]
        have hjlt : j < tl.length := by omega
        rw [List.getElem?_append, if_pos hjlt]
  · rw [if_neg hbig]
    dsimp only
    rw [List.length_append, hlt] at hbig
    simp only [List.length_cons, List.length_nil, Config.MAX_HISTORY] at hbig
    refine ⟨?_, by simp, by omega, ?_, ?_, ?_⟩
    · simp only [List.length_append, hlt, List.length_cons, List.length_nil, Config.MAX_HISTORY]
      omega
    · simp only [List.length_append, hlt, List.length_cons, List.length_nil]
      push_cast
      omega
    · rw [List.getD_eq_getElem?_getD, List.getElem?_append, hlt]
      simp
    · intro j hj
      have hcond : ¬ (Config.MAX_HISTORY : Int) < o.history_index + 2 := by
        simp only [Config.MAX_HISTORY]
        push_cast
        omega
      rw [if_neg hcond]
      have hjlt : j < (o.history_index + 1).toNat := by omega
      rw [List.getElem?_append, hlt, if_pos hjlt, List.getElem?_take, if_pos hjlt]

/-- C2 witness: the push theorem applied to a concrete in-invariant state
(two snapshots, index 1). -/
theorem c2_history_push_witness :
    (completeOverlay.annotation_history.length ≤ Config.MAX_HISTORY ∧
      -1 ≤ completeOverlay.history_index ∧
      completeOverlay.history_index < (completeOverlay.annotation_history.length : Int)) ∧
    (add_to_history completeOverlay).annotation_history.length ≤ Config.MAX_HISTORY :=
  ⟨⟨by decide, by decide, by decide⟩,
    (c2_history_push completeOverlay (by decide) (by decide) (by decide)).1⟩

/-- C6: undo at index 0 and redo at the last snapshot are exact no-ops;
otherwise undo moves the index down one (redo up one) and replaces the
annotation list with a copy of the snapshot at the new index; and for a
state within the history (index ≥ 0), k repetitions of undo bring the
index to max(index - k, 0), so it reaches 0 and goes no further. -/
theorem c6_history_bounds_noop (o : ScreenshotOverlay) :
    (o.history_index = 0 → undo o = o) ∧
    (o.history_index = (o.annotation_history.length : Int) - 1 → redo o = o) ∧
    (0 < o.history_index →
      undo o = { o with
        history_index := o.history_index - 1
        annotations := o.annotation_history.getD (o.history_index - 1).toNat [] }) ∧
    (o.history_index < (o.annotation_history.length : Int) - 1 →
      redo o = { o with
        history_index := o.history_index + 1
        annotations := o.annotation_history.getD (o.history_index + 1).toNat [] }) ∧
    (0 ≤ o.history_index → ∀ k : Nat,
      (undo^[k] o).history_index = max (o.history_index - (k : Int)) 0) := by
  refine ⟨?_, ?_, ?_, ?_, fun h k => undo_iterate_index o h k⟩
  · intro h
    unfold undo
    rw [if_neg (by omega)]
  · intro h
    unfold redo
    rw [if_neg (by omega)]
  · intro h
    unfold undo
    rw [if_pos h]
  · intro h
    unfold redo
    rw [if_pos h]

/-- C6 witness: on the concrete two-snapshot state at index 1, redo is a
no-op and undo steps to index 0 restoring the empty snapshot. -/
theorem c6_history_bounds_noop_witness :
    (completeOverlay.history_index = (completeOverlay.annotation_history.length : Int) - 1 ∧
      0 < completeOverlay.history_index) ∧
    redo completeOverlay = completeOverlay ∧
    undo completeOverlay = { completeOverlay with
      history_index := 0
      annotations := [] } :=
  ⟨⟨by decide, by decide⟩,
    (c6_history_bounds_noop completeOverlay).2.1 (by decide),
    by
      have h := (c6_history_bounds_noop completeOverlay).2.2.1 (by decide)
      simpa using h⟩

/-- C4: a full drag gesture (press at widget point a, move to b, release)
completes the selection exactly when the normalized rectangle spanned by
the two desktop points has width and height strictly above
MIN_SELECTION_SIZE; otherwise the drag is discarded (not complete), and in
both cases the drag state ends. -/
theorem c4_selection_size_gate (o : ScreenshotOverlay) (a b : QPoint)
    (hx : o.is_exiting = false) (hc : o.selection_complete = false) :
    ((mouseReleaseEvent (mouseMoveEvent (mousePressEvent o a) b) b).selection_complete = true ↔
      (QRect.fromPoints (o.coord_converter.widget_to_desktop a)
          (o.coord_converter.widget_to_desktop b)).normalized.width > Config.MIN_SELECTION_SIZE ∧
      (QRect.fromPoints (o.coord_converter.widget_to_desktop a)
          (o.coord_converter.widget_to_desktop b)).normalized.height > Config.MIN_SELECTION_SIZE) ∧
    (mouseReleaseEvent (mouseMoveEvent (mousePressEvent o a) b) b).is_selecting = false := by
  simp only [mousePressEvent, mouseMoveEvent, mouseReleaseEvent, complete_selection, hx, hc]
  simp only [Bool.false_eq_true, if_false, if_true, reduceCtorEq, ite_false, ite_true]
  split_ifs with h
  · simp [h]
  · simp [h, hc]

/-- C4 witness: a 51 x 41 drag on the base overlay completes and ends the
drag state. -/
theorem c4_selection_size_gate_witness :
    (baseOverlay.is_exiting = false ∧ baseOverlay.selection_complete = false) ∧
    (mouseReleaseEvent (mouseMoveEvent (mousePressEvent baseOverlay ⟨0, 0⟩) ⟨50, 40⟩)
        ⟨50, 40⟩).is_selecting = false :=
  ⟨⟨rfl, rfl⟩, (c4_selection_size_gate baseOverlay ⟨0, 0⟩ ⟨50, 40⟩ rfl rfl).2⟩

/-- Helper: a push never changes the annotation list itself. -/
theorem add_to_history_annotations (o : ScreenshotOverlay) :
    (add_to_history o).annotations = o.annotations := by
  unfold add_to_history
  dsimp only
  split <;> rfl

/-- C9: releasing an arrow drag whose endpoints are closer (in squared
Euclidean distance, the exact integer form of the length comparison in the
code) than MIN_ARROW_LENGTH leaves the annotation list and history exactly
unchanged, only resetting the drawing state; at or beyond
MIN_ARROW_LENGTH, the event commits exactly one arrow annotation and
performs exactly one history push. -/
theorem c9_arrow_length_gate (o : ScreenshotOverlay) (p : QPoint)
    (hx : o.is_exiting = false) (hs : o.is_selecting = false)
    (hd : o.is_drawing = true) (hm : o.annotation_mode = AnnotationMode.arrow) :
    ((p.x - o.draw_start_point.x) * (p.x - o.draw_start_point.x) +
        (p.y - o.draw_start_point.y) * (p.y - o.draw_start_point.y) <
        Config.MIN_ARROW_LENGTH * Config.MIN_ARROW_LENGTH →
      mouseReleaseEvent o p = { o with
        is_drawing := false
        current_rect := QRect.mkNull
        current_arrow_end := ⟨0, 0⟩ }) ∧
    ((p.x - o.draw_start_point.x) * (p.x - o.draw_start_point.x) +
        (p.y - o.draw_start_point.y) * (p.y - o.draw_start_point.y) ≥
        Config.MIN_ARROW_LENGTH * Config.MIN_ARROW_LENGTH →
      mouseReleaseEvent o p = { add_to_history { o with
          is_drawing := false
          annotations := o.annotations ++
            [ Annotation.arrow o.draw_start_point p o.current_style] } with
        current_rect := QRect.mkNull
        current_arrow_end := ⟨0, 0⟩ } ∧
      (mouseReleaseEvent o p).annotations = o.annotations ++
        [ Annotation.arrow o.draw_start_point p o.current_style]) := by
  have hrel : mouseReleaseEvent o p = complete_drawing o p := by
    unfold mouseReleaseEvent
    rw [if_neg (by simp [hx]), if_neg (by simp [hs]), if_pos hd]
  constructor
  · intro hsmall
    rw [hrel]
    unfold complete_drawing
    simp only [hm]
    rw [if_neg (by omega)]
  · intro hbig
    have hform : mouseReleaseEvent o p = { add_to_history { o with
        is_drawing := false
        annotations := o.annotations ++
          [ Annotation.arrow o.draw_start_point p o.current_style] } with
      current_rect := QRect.mkNull
      current_arrow_end := ⟨0, 0⟩ } := by
      rw [hrel]
      unfold complete_drawing
      simp only [hm]
      rw [if_pos hbig]
    refine ⟨hform, ?_⟩
    rw [hform]
    have := add_to_history_annotations { o with
      is_drawing := false
      annotations := o.annotations ++
        [ Annotation.arrow o.draw_start_point p o.current_style] }
    simpa using this

/-- C9 witness: on the concrete arrow drag, a release at distance 5 from
the start point (3, 4 away) changes neither annotations nor history. -/
theorem c9_arrow_length_gate_witness :
    (arrowDragOverlay.is_exiting = false ∧ arrowDragOverlay.is_selecting = false ∧
      arrowDragOverlay.is_drawing = true ∧
      arrowDragOverlay.annotation_mode = AnnotationMode.arrow) ∧
    mouseReleaseEvent arrowDragOverlay ⟨203, 204⟩ = { arrowDragOverlay with
      is_drawing := false
      current_rect := QRect.mkNull
      current_arrow_end := ⟨0, 0⟩ } :=
  ⟨⟨rfl, rfl, rfl, rfl⟩,
    (c9_arrow_length_gate arrowDragOverlay ⟨203, 204⟩ rfl rfl rfl rfl).1 (by decide)⟩

/-- C10: while a text edit is active and the overlay is not exiting,
pressing Escape (any modifiers, any produced text) only ends the edit and
empties the buffer: annotations, history, selection, mode, cursor position
and the exiting flag are all untouched, and in particular the
Escape-to-exit shortcut is never reached. -/
theorem c10_escape_cancels_text_edit (o : ScreenshotOverlay) (ctrl : Bool) (txt : String)
    (hx : o.is_exiting = false) (ht : o.is_text_editing = true) :
    keyPressEvent o ⟨Qt.Key_Escape, ctrl, txt⟩ = { o with
      is_text_editing := false
      current_text := "" } := by
  unfold keyPressEvent
  rw [if_neg (by simp [hx]), if_pos ht]
  unfold handle_text_input
  dsimp only
  rw [if_neg (by decide), if_pos rfl]

/-- C10 witness: Escape on the concrete mid-edit state drops the buffer
and nothing else. -/
theorem c10_escape_cancels_text_edit_witness :
    (textEditOverlay.is_exiting = false ∧ textEditOverlay.is_text_editing = true) ∧
    keyPressEvent textEditOverlay ⟨Qt.Key_Escape, false, ""⟩ = { textEditOverlay with
      is_text_editing := false
      current_text := "" } :=
  ⟨⟨rfl, rfl⟩, c10_escape_cancels_text_edit textEditOverlay false "" rfl rfl⟩

/-- C1 counterexample: on a concrete Complete-selection state with no
active text edit, a left press at (500, 500) — outside the selection
rectangle (100, 100)-(300, 300) — leaves the history log empty with index
-1, not the claimed single empty snapshot with index 0 (that re-seeding
only happens later, in _complete_selection, when the new drag completes). -/
theorem c1_outside_click_counterexample :
    (mousePressEvent completeOverlay ⟨500, 500⟩).annotations = [] ∧
    (mousePressEvent completeOverlay ⟨500, 500⟩).annotation_history = [] ∧
    (mousePressEvent completeOverlay ⟨500, 500⟩).history_index = -1 ∧
    ¬ ((mousePressEvent completeOverlay ⟨500, 500⟩).annotation_history = [[]] ∧
        (mousePressEvent completeOverlay ⟨500, 500⟩).history_index = 0) := by
  refine ⟨rfl, rfl, rfl, fun h => ?_⟩
  have h1 : ([] : List (List Annotation)) = [[]] := h.1
  simp at h1

/-- C1 (amended): a left pointer-down outside a Complete selection starts
a new drag at the click point and clears annotations and history, but the
history becomes the empty log with index -1 (it is re-seeded with the one
empty snapshot only when the new selection completes), and
finish_text_editing runs after the clearing, so it is only with no active
text edit that the annotation list ends empty; an active non-empty text
edit is committed into the fresh session as one annotation with a
one-snapshot history at index 0. -/
theorem c1_outside_click_reset (o : ScreenshotOverlay) (p : QPoint)
    (hx : o.is_exiting = false) (hc : o.selection_complete = true)
    (hout : (o.coord_converter.desktop_to_widget_rect o.selection_rect).contains p = false) :
    (o.is_text_editing = false →
      mousePressEvent o p = { o with
        selection_complete := false
        is_selecting := true
        selection_start := o.coord_converter.widget_to_desktop p
        selection_rect := QRect.mkNull
        annotation_mode := AnnotationMode.none
        annotations := []
        annotation_history := []
        history_index := -1
        is_drawing := false
        current_rect := QRect.mkNull
        current_arrow_end := ⟨0, 0⟩
        is_text_editing := false
        current_text := "" }) ∧
    (o.is_text_editing = true → o.current_text.trim ≠ "" →
      (mousePressEvent o p).annotations =
        [ Annotation.text o.text_position o.current_text.trim o.current_style] ∧
      (mousePressEvent o p).annotation_history =
        [[ Annotation.text o.text_position o.current_text.trim o.current_style]] ∧
      (mousePressEvent o p).history_index = 0 ∧
      (mousePressEvent o p).is_text_editing = false ∧
      (mousePressEvent o p).current_text = "") := by
  have hroute : mousePressEvent o p =
      start_new_selection o (o.coord_converter.widget_to_desktop p) := by
    unfold mousePressEvent
    rw [if_neg (by simp [hx]), if_neg (by simp [hc]), if_pos (by simp [hout])]
  constructor
  · intro ht
    rw [hroute]
    unfold start_new_selection finish_text_editing
    dsimp only
    rw [if_neg (by simp [ht])]
  · intro ht htrim
    rw [hroute]
    unfold start_new_selection finish_text_editing
    dsimp only
    rw [if_pos (by simp [ht, htrim])]
    unfold add_to_history
    dsimp only
    rw [if_neg (by simp [Config.MAX_HISTORY])]
    simp

/-- C1 witness: the amended theorem applied to the concrete state of the
counterexample. -/
theorem c1_outside_click_reset_witness :
    (completeOverlay.is_exiting = false ∧ completeOverlay.selection_complete = true ∧
      (completeOverlay.coord_converter.desktop_to_widget_rect
        completeOverlay.selection_rect).contains ⟨500, 500⟩ = false ∧
      completeOverlay.is_text_editing = false) ∧
    (mousePressEvent completeOverlay ⟨500, 500⟩).is_selecting = true := by
  refine ⟨⟨rfl, rfl, by decide, rfl⟩, ?_⟩
  rw [(c1_outside_click_reset completeOverlay ⟨500, 500⟩ rfl rfl (by decide)).1 rfl]

/-- C7: first use pins the first available backend in the fixed priority
order Qt native, grim, gnome-screenshot, spectacle, ImageMagick import; a
later initialization is a no-op whatever list it would build (so no
availability flag is consulted again); and when the pinned backend fails
to capture, capture_all_screens returns the null pixmap with the pinned
state unchanged — it never falls through to another backend. -/
theorem c7_backend_pinning
    (qtA grimA gnomeA spectacleA imA : Bool)
    (qtC grimC gnomeC spectacleC imC : Option Pixmap) :
    (initialize_backends
        (mkBackends qtA grimA gnomeA spectacleA imA qtC grimC gnomeC spectacleC imC)
        BackendState.fresh).active =
      (if qtA then some ⟨"Qt Native", qtA, qtC⟩
       else if grimA then some ⟨"Grim (Wayland)", grimA, grimC⟩
       else if gnomeA then some ⟨"GNOME Screenshot", gnomeA, gnomeC⟩
       else if spectacleA then some ⟨"Spectacle (KDE)", spectacleA, spectacleC⟩
       else if imA then some ⟨"ImageMagick", imA, imC⟩
       else none) ∧
    (∀ (mk mk2 : List Backend) (s : BackendState),
      initialize_backends mk2 (initialize_backends mk s) = initialize_backends mk s) ∧
    (∀ (mk : List Backend) (vr : QRect) (s : BackendState) (b : Backend),
      (initialize_backends mk s).active = some b →
      b.captureResult = none →
      capture_all_screens mk vr s = (initialize_backends mk s, Pixmap.mkNull)) := by
  refine ⟨?_, ?_, ?_⟩
  · simp only [initialize_backends, BackendState.fresh, mkBackends, Option.isSome_none,
      Bool.false_eq_true, if_false]
    cases qtA <;> cases grimA <;> cases gnomeA <;> cases spectacleA <;> cases imA <;>
      simp [List.find?, Backend.is_available]
  · intro mk mk2 s
    unfold initialize_backends
    by_cases hs : s.backends.isSome
    · rw [if_pos hs, if_pos hs]
    · rw [if_neg hs]
      simp
  · intro mk vr s b hact hcap
    unfold capture_all_screens
    dsimp only
    rw [hact]
    dsimp only
    rw [hcap]
    split <;> rfl

/-- C7 witness: with only grim available and grim failing, grim is pinned
and capture fails outright. -/
theorem c7_backend_pinning_witness :
    (initialize_backends grimFailingBackends BackendState.fresh).active =
        some grimFailingBackend ∧
    grimFailingBackend.captureResult = none ∧
    capture_all_screens grimFailingBackends ⟨0, 0, 1919, 1079⟩ BackendState.fresh =
      (initialize_backends grimFailingBackends BackendState.fresh, Pixmap.mkNull) :=
  ⟨rfl, rfl,
    (c7_backend_pinning false true false false false none none none none none).2.2
      grimFailingBackends ⟨0, 0, 1919, 1079⟩ BackendState.fresh grimFailingBackend rfl rfl⟩

set_option maxHeartbeats 1000000 in
/-- Helper: a non-empty intersection lies within the (re-ordered) bounds
of the second rectangle. -/
theorem intersected_bounds (r s : QRect) (h : (r.intersected s).isEmpty = false) :
    min s.x1 s.x2 ≤ (r.intersected s).x1 ∧
    (r.intersected s).x2 ≤ max s.x1 s.x2 ∧
    min s.y1 s.y2 ≤ (r.intersected s).y1 ∧
    (r.intersected s).y2 ≤ max s.y1 s.y2 ∧
    (r.intersected s).x1 ≤ (r.intersected s).x2 ∧
    (r.intersected s).y1 ≤ (r.intersected s).y2 := by
  unfold QRect.intersected at h ⊢
  dsimp only at h ⊢
  split_ifs at h ⊢ <;>
    simp only [QRect.mkNull, QRect.isEmpty, decide_eq_false_iff_not, not_or, not_lt] at h ⊢ <;>
    omega

/-- Helper: a non-empty extraction clip lies inside the source bounds. -/
theorem extraction_clip_subset (source : Pixmap) (dr vg : QRect)
    (hs : source.isNull = false)
    (hclip : (extraction_clip source dr vg).isEmpty = false) :
    0 ≤ (extraction_clip source dr vg).x1 ∧
    (extraction_clip source dr vg).x2 ≤ source.width - 1 ∧
    0 ≤ (extraction_clip source dr vg).y1 ∧
    (extraction_clip source dr vg).y2 ≤ source.height - 1 ∧
    (extraction_clip source dr vg).x1 ≤ (extraction_clip source dr vg).x2 ∧
    (extraction_clip source dr vg).y1 ≤ (extraction_clip source dr vg).y2 := by
  have hw : 0 < source.width ∧ 0 < source.height := by
    simpa only [Pixmap.isNull, decide_eq_false_iff_not, not_or, not_le] using hs
  unfold extraction_clip at hclip ⊢
  have hb := intersected_bounds _ _ hclip
  simp only [QRect.fromTopLeftSize] at hb ⊢
  omega

/-- C8: extraction returns the null pixmap for a null source, an empty
request or an empty intersection; otherwise it is exactly the copy of the
clipped rectangle — the translated selection intersected with the source
bounds — whose dimensions are the clip dimensions and whose every pixel
read stays strictly inside the source image. -/
theorem c8_extract_within_bounds (source : Pixmap) (dr vg : QRect) :
    (source.isNull = true ∨ dr.isEmpty = true →
      extract_rect_from_pixmap source dr vg = Pixmap.mkNull) ∧
    ((extraction_clip source dr vg).isEmpty = true →
      extract_rect_from_pixmap source dr vg = Pixmap.mkNull) ∧
    (source.isNull = false → dr.isEmpty = false →
      (extraction_clip source dr vg).isEmpty = false →
      extract_rect_from_pixmap source dr vg = source.copy (extraction_clip source dr vg) ∧
      (extract_rect_from_pixmap source dr vg).width = (extraction_clip source dr vg).width ∧
      (extract_rect_from_pixmap source dr vg).height = (extraction_clip source dr vg).height ∧
      (∀ i j : Int, 0 ≤ i → i < (extraction_clip source dr vg).width →
        0 ≤ j → j < (extraction_clip source dr vg).height →
        (0 ≤ (extraction_clip source dr vg).x1 + i ∧
          (extraction_clip source dr vg).x1 + i < source.width ∧
          0 ≤ (extraction_clip source dr vg).y1 + j ∧
          (extraction_clip source dr vg).y1 + j < source.height) ∧
        (extract_rect_from_pixmap source dr vg).pix i j =
          source.pix ((extraction_clip source dr vg).x1 + i)
            ((extraction_clip source dr vg).y1 + j))) := by
  refine ⟨?_, ?_, ?_⟩
  · intro h
    unfold extract_rect_from_pixmap
    rw [if_pos (by rcases h with h | h <;> simp [h])]
  · intro h
    unfold extract_rect_from_pixmap
    dsimp only
    by_cases h0 : (source.isNull || dr.isEmpty) = true
    · rw [if_pos h0]
    · rw [if_neg h0, if_pos h]
  · intro hs hd hclip
    have hext : extract_rect_from_pixmap source dr vg =
        source.copy (extraction_clip source dr vg) := by
      unfold extract_rect_from_pixmap
      dsimp only
      rw [if_neg (by simp [hs, hd]), if_neg (by simp [hclip])]
    have hb := extraction_clip_subset source dr vg hs hclip
    refine ⟨hext, by rw [hext]; rfl, by rw [hext]; rfl, ?_⟩
    intro i j hi hiw hj hjh
    unfold QRect.width at hiw
    unfold QRect.height at hjh
    refine ⟨by omega, ?_⟩
    rw [hext]
    rfl

/-- C8 witness: on the concrete 4 x 3 pixmap and the overhanging request,
extraction is exactly the clipped copy. -/
theorem c8_extract_within_bounds_witness :
    (samplePixmap.isNull = false ∧ sampleDesktopRect.isEmpty = false ∧
      (extraction_clip samplePixmap sampleDesktopRect sampleVG).isEmpty = false) ∧
    extract_rect_from_pixmap samplePixmap sampleDesktopRect sampleVG =
      samplePixmap.copy (extraction_clip samplePixmap sampleDesktopRect sampleVG) :=
  ⟨⟨rfl, rfl, rfl⟩,
    ((c8_extract_within_bounds samplePixmap sampleDesktopRect sampleVG).2.2 rfl rfl rfl).1⟩

end SquareShot
